import Mathlib

/-!
Verification of the pulpcore content data model
(`platform/pulpcore/app/models/content.py`) and of the consumer
bind/unbind coordinator exercised by `test/unit/test_consumer_api.py`.
Django model declarations are embedded as Lean structures together with
their field options; database constraints (unique, unique_together,
max_length) become decidable table invariants and insert operations.
Where an operation's implementation is not part of the sources (the
consumer API), it is modelled from the specification, as noted on the
definition.
-/

/-- Options of a Django model field, in order:
max_length, blank, null, unique, db_index. -/
structure FieldOptions where
  maxLength : Option Nat
  blank : Bool
  null : Bool
  unique : Bool
  dbIndex : Bool
  deriving Repr, DecidableEq

/-- An Artifact row: a file associated with a piece of content
(class `Artifact`, content.py lines 12-44).  Char fields are strings, the
size IntegerField is an integer; `file` holds the stored file's name. -/
structure Artifact where
  file : String
  size : Int
  md5 : String
  sha1 : String
  sha224 : String
  sha256 : String
  sha384 : String
  sha512 : String
  deriving Repr, DecidableEq

/-- Declaration `file = models.FileField(blank=False, null=False, upload_to=storage_path, max_length=255)` (content.py line 37). -/
def Artifact.fileField : FieldOptions := ⟨some 255, false, false, false, false⟩

/-- Declaration `size = models.IntegerField(blank=False, null=False)` (content.py line 38). -/
def Artifact.sizeField : FieldOptions := ⟨none, false, false, false, false⟩

/-- Declaration `md5 = models.CharField(max_length=32, blank=False, null=False, unique=False, db_index=True)` (content.py line 39). -/
def Artifact.md5Field : FieldOptions := ⟨some 32, false, false, false, true⟩

/-- Declaration `sha1 = models.CharField(max_length=40, blank=False, null=False, unique=False, db_index=True)` (content.py line 40). -/
def Artifact.sha1Field : FieldOptions := ⟨some 40, false, false, false, true⟩

/-- Declaration `sha224 = models.CharField(max_length=56, blank=False, null=False, unique=False, db_index=True)` (content.py line 41). -/
def Artifact.sha224Field : FieldOptions := ⟨some 56, false, false, false, true⟩

/-- Declaration `sha256 = models.CharField(max_length=64, blank=False, null=False, unique=True, db_index=True)` (content.py line 42). -/
def Artifact.sha256Field : FieldOptions := ⟨some 64, false, false, true, true⟩

/-- Declaration `sha384 = models.CharField(max_length=96, blank=False, null=False, unique=True, db_index=True)` (content.py line 43). -/
def Artifact.sha384Field : FieldOptions := ⟨some 96, false, false, true, true⟩

/-- Declaration `sha512 = models.CharField(max_length=128, blank=False, null=False, unique=True, db_index=True)` (content.py line 44). -/
def Artifact.sha512Field : FieldOptions := ⟨some 128, false, false, true, true⟩

/-- Two Artifact rows conflict when they agree on one of the columns
declared `unique=True`: sha256, sha384 or sha512 (content.py lines 42-44). -/
def Artifact.conflicts (a b : Artifact) : Bool :=
  a.sha256 == b.sha256 || a.sha384 == b.sha384 || a.sha512 == b.sha512

/-- A list of Artifact rows satisfies the table's unique constraints. -/
def artifactTableOk : List Artifact → Bool
  | [] => true
  | a :: rest => rest.all (fun b => !(Artifact.conflicts a b)) && artifactTableOk rest

/-- Error raised by the database layer on a constraint violation. -/
inductive DbError where
  | uniqueViolation
  deriving Repr, DecidableEq

/-- Insert of an Artifact row, enforcing the unique constraints that the
schema declares on sha256, sha384 and sha512. -/
def Artifact.insert (t : List Artifact) (a : Artifact) :
    Except DbError (List Artifact) :=
  if t.any (fun b => Artifact.conflicts b a) then .error .uniqueViolation
  else .ok (t ++ [a])

theorem artifactTableOk_cons {a : Artifact} {rest : List Artifact} :
    artifactTableOk (a :: rest) = true ↔
      (∀ b ∈ rest, Artifact.conflicts a b = false) ∧ artifactTableOk rest = true := by
  simp [artifactTableOk, List.all_eq_true]

theorem artifactTableOk_pairwise {t : List Artifact}
    (h : artifactTableOk t = true) :
    t.Pairwise (fun a b => Artifact.conflicts a b = false) := by
  induction t with
  | nil => exact List.Pairwise.nil
  | cons a rest ih =>
    rw [artifactTableOk_cons] at h
    exact List.Pairwise.cons h.1 (ih h.2)

theorem Artifact.conflicts_eq_false_iff {a b : Artifact} :
    Artifact.conflicts a b = false ↔
      a.sha256 ≠ b.sha256 ∧ a.sha384 ≠ b.sha384 ∧ a.sha512 ≠ b.sha512 := by
  simp [Artifact.conflicts, and_assoc]

/-- A valid two-row table whose rows share md5, sha1 and sha224 but differ on
the three unique digest columns. -/
def md5RepeatTable : List Artifact :=
  [⟨"f1", 3, "same-md5", "same-sha1", "same-sha224", "256-a", "384-a", "512-a"⟩,
   ⟨"f2", 3, "same-md5", "same-sha1", "same-sha224", "256-b", "384-b", "512-b"⟩]

/-- C1: in a table satisfying the declared constraints, any two distinct
Artifact rows differ on sha256, on sha384 and on sha512; the uniqueness
constraint is declared on exactly those three digest columns, while md5, sha1
and sha224 are merely indexed (db_index) and may repeat across rows, as the
valid table `md5RepeatTable` shows. -/
theorem artifact_digest_uniqueness (t : List Artifact)
    (h : artifactTableOk t = true) (i j : Fin t.length) (hij : i ≠ j) :
    (t.get i).sha256 ≠ (t.get j).sha256 ∧
    (t.get i).sha384 ≠ (t.get j).sha384 ∧
    (t.get i).sha512 ≠ (t.get j).sha512 ∧
    Artifact.sha256Field.unique = true ∧
    Artifact.sha384Field.unique = true ∧
    Artifact.sha512Field.unique = true ∧
    Artifact.md5Field.unique = false ∧ Artifact.md5Field.dbIndex = true ∧
    Artifact.sha1Field.unique = false ∧ Artifact.sha1Field.dbIndex = true ∧
    Artifact.sha224Field.unique = false ∧ Artifact.sha224Field.dbIndex = true ∧
    Artifact.fileField.unique = false ∧ Artifact.sizeField.unique = false ∧
    artifactTableOk md5RepeatTable = true ∧
    md5RepeatTable.map Artifact.md5 = ["same-md5", "same-md5"] := by
  have hp := List.pairwise_iff_get.mp (artifactTableOk_pairwise h)
  have hval : i.val ≠ j.val := fun hv => hij (Fin.ext hv)
  have hmain : (t.get i).sha256 ≠ (t.get j).sha256 ∧
      (t.get i).sha384 ≠ (t.get j).sha384 ∧
      (t.get i).sha512 ≠ (t.get j).sha512 := by
    rcases hval.lt_or_lt with hlt | hlt
    · exact Artifact.conflicts_eq_false_iff.mp (hp i j hlt)
    · have hc := Artifact.conflicts_eq_false_iff.mp (hp j i hlt)
      exact ⟨hc.1.symm, hc.2.1.symm, hc.2.2.symm⟩
  exact ⟨hmain.1, hmain.2.1, hmain.2.2, rfl, rfl, rfl, rfl, rfl, rfl, rfl, rfl,
    rfl, rfl, rfl, by decide, by decide⟩

/-- Witness: the uniqueness theorem applied to the concrete valid table. -/
theorem artifact_digest_uniqueness_witness :
    (md5RepeatTable.get ⟨0, by decide⟩).sha256 ≠
      (md5RepeatTable.get ⟨1, by decide⟩).sha256 :=
  (artifact_digest_uniqueness md5RepeatTable (by decide)
    ⟨0, by decide⟩ ⟨1, by decide⟩ (by decide)).1

/-- Method `Artifact.storage_path(self, name)` (content.py lines 27-35): the
callable used by the FileField to determine where an uploaded file is stored.
It returns `default_storage.get_artifact_path(self.sha256)`; the original
`name` of the uploaded file is ignored.  The storage backend
(`default_storage`) is external to the sources, so its `get_artifact_path` is
taken as a parameter. -/
def Artifact.storage_path (get_artifact_path : String → String) (a : Artifact)
    (name : String) : String :=
  get_artifact_path a.sha256

/-- C2: for a fixed storage backend, the storage path of an Artifact's file is
a function of its sha256 digest alone: two artifacts with equal sha256 map to
the same path, whatever the original upload filenames were. -/
theorem storage_path_pure_of_sha256 (get_artifact_path : String → String)
    (a b : Artifact) (n1 n2 : String) (h : a.sha256 = b.sha256) :
    Artifact.storage_path get_artifact_path a n1 =
      Artifact.storage_path get_artifact_path b n2 := by
  simp [Artifact.storage_path, h]

/-- Witness: two ingests of the same bytes under different upload names
resolve to one path. -/
theorem storage_path_pure_of_sha256_witness :
    Artifact.storage_path (fun s => "artifact/" ++ s)
        ⟨"f1", 3, "same-md5", "same-sha1", "same-sha224", "256-a", "384-a", "512-a"⟩
        "pkg-a.rpm" =
      Artifact.storage_path (fun s => "artifact/" ++ s)
        ⟨"f1", 3, "same-md5", "same-sha1", "same-sha224", "256-a", "384-a", "512-a"⟩
        "pkg-b.rpm" :=
  storage_path_pure_of_sha256 (fun s => "artifact/" ++ s) _ _ "pkg-a.rpm" "pkg-b.rpm" rfl

/-- An Artifact row whose size is negative; every constraint the schema
declares is satisfied, since `size = models.IntegerField(blank=False,
null=False)` (content.py line 38) carries no non-negativity validator. -/
def negSizeArtifact : Artifact :=
  ⟨"f-neg", -1, "md5-n", "sha1-n", "sha224-n", "256-n", "384-n", "512-n"⟩

/-- C9 counterexample: it is not true that every Artifact row of a table
satisfying the declared constraints has a non-negative size; the one-row
table holding `negSizeArtifact` (size = -1) is valid. -/
theorem artifact_size_nonneg_counterexample :
    ¬ (∀ t : List Artifact, artifactTableOk t = true → ∀ a ∈ t, 0 ≤ a.size) := by
  intro h
  have hmem : negSizeArtifact ∈ [negSizeArtifact] := List.mem_singleton.mpr rfl
  have := h [negSizeArtifact] (by decide) negSizeArtifact hmem
  simp only [negSizeArtifact] at this
  exact absurd this (by decide)

/-- C9 amended: size is a required integer column (null=False, blank=False)
but the schema imposes no non-negativity constraint: an Artifact row with
size = -1 satisfies every declared constraint and is accepted by insert. -/
theorem artifact_size_no_nonneg_constraint :
    Artifact.sizeField.null = false ∧ Artifact.sizeField.blank = false ∧
    negSizeArtifact.size = -1 ∧
    artifactTableOk [negSizeArtifact] = true ∧
    Artifact.insert [] negSizeArtifact = Except.ok [negSizeArtifact] := by
  refine ⟨rfl, rfl, rfl, by decide, ?_⟩
  simp [Artifact.insert]

/-- A ContentArtifact row: the relationship between a Content and an Artifact
(class `ContentArtifact`, content.py lines 80-91).  The artifact foreign key
is nullable (null=True); content and artifact are referenced by row id. -/
structure ContentArtifact where
  artifact : Option Nat
  content : Nat
  relative_path : String
  deriving Repr, DecidableEq

/-- Declaration `artifact = models.ForeignKey(Artifact, on_delete=models.CASCADE, null=True)` (content.py line 86). -/
def ContentArtifact.artifactField : FieldOptions := ⟨none, false, true, false, false⟩

/-- Declaration `relative_path = models.CharField(max_length=64)` (content.py line 88); blank, null, unique and db_index keep their Django defaults. -/
def ContentArtifact.relative_pathField : FieldOptions := ⟨some 64, false, false, false, false⟩

/-- Storage-layer acceptance of a ContentArtifact row: the relative_path
column is a varchar of the declared max_length 64. -/
def ContentArtifact.rowOk (ca : ContentArtifact) : Bool :=
  ca.relative_path.length ≤ 64

/-- Typed errors surfaced by the content catalog (spec section 7): a
unique_together violation becomes DuplicatePathError; a value wider than the
column is rejected by the storage layer. -/
inductive CatalogError where
  | duplicatePath
  | valueTooLong
  deriving Repr, DecidableEq

/-- Modelled from the spec: `attach_artifact(content, artifact_or_none,
relative_path)` of the Content Catalog (spec section 4.4) is not among the
sources; it inserts a ContentArtifact row, enforcing the declared
`unique_together = ('content', 'relative_path')` (content.py lines 90-91) —
surfaced as DuplicatePathError — and the varchar(64) width of relative_path
(content.py line 88). -/
def attach_artifact (t : List ContentArtifact) (content : Nat)
    (artifact : Option Nat) (relative_path : String) :
    Except CatalogError (List ContentArtifact) :=
  if 64 < relative_path.length then .error .valueTooLong
  else if t.any (fun ca => ca.content == content && ca.relative_path == relative_path)
  then .error .duplicatePath
  else .ok (t ++ [⟨artifact, content, relative_path⟩])

/-- C5: the pair (content, relative_path) is unique among a content unit's
join rows: on a table with no row for (c, p), a first attach with a null
artifact succeeds — the artifact foreign key is declared nullable — and any
second attach with the same content and relative_path fails with
DuplicatePathError, whatever artifact it carries. -/
theorem attach_artifact_duplicate_path (t : List ContentArtifact) (c : Nat)
    (p : String) (a2 : Option Nat) (hlen : p.length ≤ 64)
    (hfree : ∀ ca ∈ t, ¬ (ca.content = c ∧ ca.relative_path = p)) :
    attach_artifact t c none p = .ok (t ++ [⟨none, c, p⟩]) ∧
    attach_artifact (t ++ [⟨none, c, p⟩]) c a2 p = .error .duplicatePath ∧
    ContentArtifact.artifactField.null = true := by
  have hnotlong : ¬ (64 < p.length) := Nat.not_lt.mpr hlen
  have hany : t.any (fun ca => ca.content == c && ca.relative_path == p) = false := by
    rw [List.any_eq_false]
    intro ca hca
    have := hfree ca hca
    simp only [Bool.and_eq_true, beq_iff_eq, not_and] at this ⊢
    intro hc hp
    exact this hc hp
  refine ⟨?_, ?_, rfl⟩
  · simp [attach_artifact, hnotlong, hany]
  · simp [attach_artifact, hnotlong, List.any_append]

/-- Witness: attaching artifact=None at path "x" succeeds once and fails with
DuplicatePathError the second time. -/
theorem attach_artifact_duplicate_path_witness :
    attach_artifact [] 1 none "x" = .ok [⟨none, 1, "x"⟩] ∧
    attach_artifact [⟨none, 1, "x"⟩] 1 (some 7) "x" =
      .error CatalogError.duplicatePath ∧
    ContentArtifact.artifactField.null = true := by
  have h := attach_artifact_duplicate_path [] 1 "x" (some 7) (by decide)
    (by intro ca hca; cases hca)
  simpa using h

/-- C10: relative_path is bounded by the declared max_length of 64: an attach
under a path longer than 64 characters is rejected by the storage layer, and
every row a successful attach adds to a table of in-bound rows keeps all
relative_path values at 64 characters or fewer. -/
theorem relative_path_max_length (t : List ContentArtifact) (c : Nat)
    (a : Option Nat) (p : String) (h : 64 < p.length) :
    attach_artifact t c a p = .error .valueTooLong ∧
    ContentArtifact.relative_pathField.maxLength = some 64 ∧
    (∀ (t' : List ContentArtifact) (c' : Nat) (a' : Option Nat) (p' : String)
        (res : List ContentArtifact),
      (∀ ca ∈ t', ContentArtifact.rowOk ca = true) →
      attach_artifact t' c' a' p' = .ok res →
      ∀ ca ∈ res, ContentArtifact.rowOk ca = true) := by
  refine ⟨by simp [attach_artifact, h], rfl, ?_⟩
  intro t' c' a' p' res hok hatt ca hca
  by_cases hlong : 64 < p'.length
  · simp [attach_artifact, hlong] at hatt
  · by_cases hdup :
        t'.any (fun ca => ca.content == c' && ca.relative_path == p') = true
    · simp [attach_artifact, hlong, hdup] at hatt
    · rw [attach_artifact, if_neg hlong, if_neg hdup] at hatt
      cases hatt
      rcases List.mem_append.mp hca with hmem | hmem
      · exact hok ca hmem
      · rcases List.mem_singleton.mp hmem with rfl
        simpa [ContentArtifact.rowOk] using Nat.not_lt.mp hlong

/-- A relative path of 65 characters. -/
def longPath65 : String :=
  "aaaaaaaaaaaaaaaaaaaaaaaaaaaaaaaaaaaaaaaaaaaaaaaaaaaaaaaaaaaaaaaaa"

/-- Witness: attaching under a 65-character path is rejected. -/
theorem relative_path_max_length_witness :
    attach_artifact [] 2 none longPath65 = .error CatalogError.valueTooLong :=
  (relative_path_max_length [] 2 none longPath65 (by decide)).1

/-- A DeferredArtifact row: information about an artifact not yet retrieved
(class `DeferredArtifact`, content.py lines 94-130).  Nullable columns are
options; content_artifact and importer are referenced by row id. -/
structure DeferredArtifact where
  url : String
  size : Option Int
  md5 : Option String
  sha1 : Option String
  sha224 : Option String
  sha256 : Option String
  sha384 : Option String
  sha512 : Option String
  content_artifact : Nat
  importer : Nat
  deriving Repr, DecidableEq

/-- Declaration `url = models.TextField(blank=True, validators=[validators.URLValidator])` (content.py line 121): blank=True, null and the rest at their Django defaults. -/
def DeferredArtifact.urlField : FieldOptions := ⟨none, true, false, false, false⟩

/-- Declaration `size = models.IntegerField(blank=True, null=True)` (content.py line 122). -/
def DeferredArtifact.sizeField : FieldOptions := ⟨none, true, true, false, false⟩

/-- Declaration `md5 = models.CharField(max_length=32, blank=True, null=True)` (content.py line 123). -/
def DeferredArtifact.md5Field : FieldOptions := ⟨some 32, true, true, false, false⟩

/-- Declaration `sha1 = models.CharField(max_length=40, blank=True, null=True)` (content.py line 124). -/
def DeferredArtifact.sha1Field : FieldOptions := ⟨some 40, true, true, false, false⟩

/-- Declaration `sha224 = models.CharField(max_length=56, blank=True, null=True)` (content.py line 125). -/
def DeferredArtifact.sha224Field : FieldOptions := ⟨some 56, true, true, false, false⟩

/-- Declaration `sha256 = models.CharField(max_length=64, blank=True, null=True)` (content.py line 126). -/
def DeferredArtifact.sha256Field : FieldOptions := ⟨some 64, true, true, false, false⟩

/-- Declaration `sha384 = models.CharField(max_length=96, blank=True, null=True)` (content.py line 127). -/
def DeferredArtifact.sha384Field : FieldOptions := ⟨some 96, true, true, false, false⟩

/-- Declaration `sha512 = models.CharField(max_length=128, blank=True, null=True)` (content.py line 128). -/
def DeferredArtifact.sha512Field : FieldOptions := ⟨some 128, true, true, false, false⟩

/-- Django blank validation of a text value against a field declaration: an
empty string is rejected exactly when the field declares blank=False. -/
def cleanBlank (opts : FieldOptions) (v : String) : Bool :=
  opts.blank || v != ""

/-- Validation of a DeferredArtifact row as declared: the only constraint the
url column declares that a plain string can violate is the blank check — and
with blank=True it never fires.  (The URLValidator listed on the column is
referenced as a class, not an instance, so under Django's validator protocol
it raises nothing.) -/
def DeferredArtifact.clean (d : DeferredArtifact) : Bool :=
  cleanBlank DeferredArtifact.urlField d.url

/-- A DeferredArtifact row with a blank url. -/
def blankUrlDeferred : DeferredArtifact :=
  ⟨"", none, none, none, none, none, none, none, 1, 1⟩

/-- C4: the optional half of the claim holds — expected size and all six
expected digests are nullable — but the url is not required: the column is
declared blank=True, so a DeferredArtifact whose url is the empty string
passes validation, contradicting the claim (and the class's own docstring,
which calls the URL part of the required minimum). -/
theorem deferred_url_blank_allowed :
    DeferredArtifact.urlField.blank = true ∧
    blankUrlDeferred.url = "" ∧
    DeferredArtifact.clean blankUrlDeferred = true ∧
    DeferredArtifact.sizeField.null = true ∧
    DeferredArtifact.md5Field.null = true ∧
    DeferredArtifact.sha1Field.null = true ∧
    DeferredArtifact.sha224Field.null = true ∧
    DeferredArtifact.sha256Field.null = true ∧
    DeferredArtifact.sha384Field.null = true ∧
    DeferredArtifact.sha512Field.null = true := by
  refine ⟨rfl, rfl, ?_, rfl, rfl, rfl, rfl, rfl, rfl, rfl⟩
  simp [DeferredArtifact.clean, cleanBlank, DeferredArtifact.urlField]

/-- A repository record as the consumer API sees it: id, display name,
architecture, and the configured GPG keys (name, content). -/
structure Repo where
  id : String
  name : String
  arch : String
  gpg_keys : List (String × String)
  deriving Repr, DecidableEq

/-- The payload assembled by bind: the repo descriptor fields, the ordered
candidate host URLs, and the GPG key mapping. -/
structure BindPayload where
  repo_id : String
  repo_name : String
  host_urls : List String
  gpg_keys : List (String × String)
  deriving Repr, DecidableEq

/-- State of the consumer API and its collaborators: registered consumers and
repositories, the CDS-to-repo association list (in association order), the
consumer-repository bind relation, and the agent channel's per-method call
history (ordered, with the consumer each call targets). -/
structure PulpState where
  consumers : List String
  repos : List Repo
  cds_assoc : List (String × String)
  bindings : List (String × String)
  bind_calls : List (String × BindPayload)
  unbind_calls : List (String × String)
  deriving Repr, DecidableEq

/-- The origin server's own base URL for a repo, as the bind payload carries
it (test_consumer_api.py line 64). -/
def originUrl (repo_id : String) : String :=
  "https://localhost/pulp/repos/" ++ repo_id

/-- A mirror endpoint URL for a repo hosted on a CDS instance. -/
def cdsUrl (cds_hostname repo_id : String) : String :=
  "https://" ++ cds_hostname ++ "/pulp/repos/" ++ repo_id

/-- The mirror endpoints associated with a repo, in association order. -/
def mirrorsOf (s : PulpState) (repo_id : String) : List String :=
  (s.cds_assoc.filter (fun p => p.2 == repo_id)).map (fun p => cdsUrl p.1 repo_id)

/-- Errors of the consumer API (PulpException specialised per spec section 7). -/
inductive PulpError where
  | consumerNotFound
  | repoNotFound
  deriving Repr, DecidableEq

/-- Lookup of a repo by id. -/
def findRepo (s : PulpState) (rid : String) : Option Repo :=
  s.repos.find? (fun r => r.id == rid)

/-- Whether the (consumer, repo) pair is currently bound. -/
def isBound (s : PulpState) (cid rid : String) : Bool :=
  s.bindings.any (fun b => b.1 == cid && b.2 == rid)

/-- Modelled from the spec: `bind(consumer_id, repo_id)` of the Bind
Coordinator (spec section 4.6); its implementation is not among the sources,
only its tests are.  It fails when the consumer or the repo does not exist,
builds host_urls as all associated mirror endpoints in association order
followed by the origin's own base URL last, builds the GPG key mapping,
records the relation (idempotently), and dispatches the payload to the
consumer's agent. -/
def ConsumerApi.bind (s : PulpState) (cid rid : String) :
    Except PulpError (BindPayload × PulpState) :=
  if s.consumers.contains cid then
    match findRepo s rid with
    | none => .error .repoNotFound
    | some repo =>
      let payload : BindPayload :=
        ⟨rid, repo.name, mirrorsOf s rid ++ [originUrl rid], repo.gpg_keys⟩
      .ok (payload,
        { s with
            bindings :=
              if isBound s cid rid then s.bindings else s.bindings ++ [(cid, rid)],
            bind_calls := s.bind_calls ++ [(cid, payload)] })
  else .error .consumerNotFound

/-- Modelled from the spec: `unbind(consumer_id, repo_id)` of the Bind
Coordinator (spec section 4.6); its implementation is not among the sources.
It fails when the consumer does not exist; when the pair is not bound it is a
silent no-op (no error, no dispatch, the repo need not exist); otherwise it
removes the relation and dispatches an unbind notice carrying the repo_id. -/
def ConsumerApi.unbind (s : PulpState) (cid rid : String) :
    Except PulpError PulpState :=
  if s.consumers.contains cid then
    if isBound s cid rid then
      .ok { s with
              bindings := s.bindings.filter (fun b => !(b.1 == cid && b.2 == rid)),
              unbind_calls := s.unbind_calls ++ [(cid, rid)] }
    else .ok s
  else .error .consumerNotFound

/-- The state after a bind call, the error case leaving it untouched. -/
def ConsumerApi.bindStep (s : PulpState) (cid rid : String) : PulpState :=
  match ConsumerApi.bind s cid rid with
  | .ok (_, s') => s'
  | .error _ => s

/-- The state after an unbind call, the error case leaving it untouched. -/
def ConsumerApi.unbindStep (s : PulpState) (cid rid : String) : PulpState :=
  match ConsumerApi.unbind s cid rid with
  | .ok s' => s'
  | .error _ => s

/-- The payload a successful bind returns, if any. -/
def ConsumerApi.bindPayloadOf (s : PulpState) (cid rid : String) :
    Option BindPayload :=
  match ConsumerApi.bind s cid rid with
  | .ok (p, _) => some p
  | .error _ => none

/-- Whether a bind call failed. -/
def exceptFailed {ε α : Type} : Except ε α → Bool
  | .error _ => true
  | .ok _ => false

/-- The repos a consumer is bound to, in binding order. -/
def boundRepos (s : PulpState) (cid : String) : List String :=
  (s.bindings.filter (fun b => b.1 == cid)).map (fun b => b.2)

/-- The bind payloads dispatched to a consumer's agent, in dispatch order. -/
def bindCallsFor (s : PulpState) (cid : String) : List BindPayload :=
  (s.bind_calls.filter (fun c => c.1 == cid)).map (fun c => c.2)

/-- The unbind repo_ids dispatched to a consumer's agent, in dispatch order. -/
def unbindCallsFor (s : PulpState) (cid : String) : List String :=
  (s.unbind_calls.filter (fun c => c.1 == cid)).map (fun c => c.2)

/-- C3: a successful bind returns a payload whose host_urls is the ordered
list of the repo's associated mirror endpoints (in association order)
followed by the origin server's own base URL as the last element; with two
associated mirrors the sequence has length 3 and the origin URL sits at
index 2. -/
theorem bind_host_urls_mirrors_then_origin (s : PulpState) (cid rid : String)
    (repo : Repo) (hc : s.consumers.contains cid = true)
    (hr : findRepo s rid = some repo) :
    ConsumerApi.bindPayloadOf s cid rid =
      some ⟨rid, repo.name, mirrorsOf s rid ++ [originUrl rid], repo.gpg_keys⟩ ∧
    (mirrorsOf s rid ++ [originUrl rid]).getLast? = some (originUrl rid) ∧
    ((mirrorsOf s rid).length = 2 →
      (mirrorsOf s rid ++ [originUrl rid]).length = 3 ∧
      (mirrorsOf s rid ++ [originUrl rid])[2]? = some (originUrl rid)) := by
  refine ⟨?_, List.getLast?_concat _, ?_⟩
  · have hmem : cid ∈ s.consumers := by simpa using hc
    simp [ConsumerApi.bindPayloadOf, ConsumerApi.bind, hmem, hr]
  · intro hlen
    constructor
    · simp [List.length_append, hlen]
    · rw [List.getElem?_append_right (by rw [hlen])]
      rw [hlen]
      rfl

/-- A state with one consumer, one repo, and two CDS mirrors associated with
that repo, as in test_bind_with_cds (test_consumer_api.py lines 163-185). -/
def bindDemoState : PulpState :=
  ⟨["test-consumer"],
   [⟨"test-repo", "Test Repo", "noarch", []⟩],
   [("cds1", "test-repo"), ("cds2", "test-repo")],
   [], [], []⟩

/-- Witness: binding against the two-mirror state yields the two CDS URLs
followed by the origin URL, three hosts with the origin last. -/
theorem bind_host_urls_mirrors_then_origin_witness :
    ConsumerApi.bindPayloadOf bindDemoState "test-consumer" "test-repo" =
      some ⟨"test-repo", "Test Repo",
        [cdsUrl "cds1" "test-repo", cdsUrl "cds2" "test-repo",
          originUrl "test-repo"], []⟩ ∧
    ((mirrorsOf bindDemoState "test-repo" ++ [originUrl "test-repo"]).length = 3 ∧
      (mirrorsOf bindDemoState "test-repo" ++ [originUrl "test-repo"])[2]? =
        some (originUrl "test-repo")) := by
  have h := bind_host_urls_mirrors_then_origin bindDemoState "test-consumer"
    "test-repo" ⟨"test-repo", "Test Repo", "noarch", []⟩ (by decide) (by decide)
  exact ⟨h.1.trans (by decide), h.2.2 (by decide)⟩

/-- C6: a bind naming a consumer or a repo that does not exist fails, creates
no relation and dispatches nothing: the state is unchanged, so the consumer's
bound-repo set and the agent channel history for that consumer are exactly
what they were. -/
theorem bind_not_found_no_effect (s : PulpState) (cid rid : String)
    (h : s.consumers.contains cid = false ∨ findRepo s rid = none) :
    exceptFailed (ConsumerApi.bind s cid rid) = true ∧
    ConsumerApi.bindStep s cid rid = s ∧
    (ConsumerApi.bindStep s cid rid).bindings = s.bindings ∧
    bindCallsFor (ConsumerApi.bindStep s cid rid) cid = bindCallsFor s cid ∧
    boundRepos (ConsumerApi.bindStep s cid rid) cid = boundRepos s cid := by
  have herr : ∃ e, ConsumerApi.bind s cid rid = .error e := by
    rcases h with h | h
    · have hmem : cid ∉ s.consumers := by simpa using h
      exact ⟨.consumerNotFound, by simp [ConsumerApi.bind, hmem]⟩
    · by_cases hmem : cid ∈ s.consumers
      · exact ⟨.repoNotFound, by simp [ConsumerApi.bind, hmem, h]⟩
      · exact ⟨.consumerNotFound, by simp [ConsumerApi.bind, hmem]⟩
  obtain ⟨e, he⟩ := herr
  have hstep : ConsumerApi.bindStep s cid rid = s := by
    simp [ConsumerApi.bindStep, he]
  exact ⟨by simp [exceptFailed, he], hstep, by rw [hstep], by rw [hstep],
    by rw [hstep]⟩

/-- A state holding a repo but no consumer, as in test_bind_invalid_consumer
(test_consumer_api.py lines 127-143). -/
def noConsumerState : PulpState :=
  ⟨[], [⟨"test-repo", "Test Repo", "noarch", []⟩], [], [], [], []⟩

/-- Witness: binding a nonexistent consumer fails and touches nothing. -/
theorem bind_not_found_no_effect_witness :
    exceptFailed (ConsumerApi.bind noConsumerState "fake-consumer" "test-repo") =
      true ∧
    ConsumerApi.bindStep noConsumerState "fake-consumer" "test-repo" =
      noConsumerState ∧
    (ConsumerApi.bindStep noConsumerState "fake-consumer" "test-repo").bindings =
      noConsumerState.bindings ∧
    bindCallsFor (ConsumerApi.bindStep noConsumerState "fake-consumer" "test-repo")
        "fake-consumer" =
      bindCallsFor noConsumerState "fake-consumer" ∧
    boundRepos (ConsumerApi.bindStep noConsumerState "fake-consumer" "test-repo")
        "fake-consumer" =
      boundRepos noConsumerState "fake-consumer" :=
  bind_not_found_no_effect noConsumerState "fake-consumer" "test-repo"
    (Or.inl (by decide))

/-- C7: when the consumer exists and the pair is not bound, unbind is a
silent no-op — it returns the state unchanged, raising no error, leaving the
bound-repo set and the unbind call history as they were (the repo need not
exist); when the consumer does not exist, unbind fails with
ConsumerNotFoundError and dispatches nothing. -/
theorem unbind_not_bound_noop (s : PulpState) (cid rid : String) :
    (s.consumers.contains cid = true → isBound s cid rid = false →
      ConsumerApi.unbind s cid rid = .ok s ∧
      boundRepos (ConsumerApi.unbindStep s cid rid) cid = boundRepos s cid ∧
      unbindCallsFor (ConsumerApi.unbindStep s cid rid) cid =
        unbindCallsFor s cid) ∧
    (s.consumers.contains cid = false →
      ConsumerApi.unbind s cid rid = .error PulpError.consumerNotFound ∧
      ConsumerApi.unbindStep s cid rid = s) := by
  constructor
  · intro hc hnb
    have hmem : cid ∈ s.consumers := by simpa using hc
    have hret : ConsumerApi.unbind s cid rid = .ok s := by
      simp [ConsumerApi.unbind, hmem, hnb]
    have hstep : ConsumerApi.unbindStep s cid rid = s := by
      simp [ConsumerApi.unbindStep, hret]
    exact ⟨hret, by rw [hstep], by rw [hstep]⟩
  · intro hc
    have hmem : cid ∉ s.consumers := by simpa using hc
    have hret : ConsumerApi.unbind s cid rid = .error PulpError.consumerNotFound := by
      simp [ConsumerApi.unbind, hmem]
    exact ⟨hret, by simp [ConsumerApi.unbindStep, hret]⟩

/-- A state with one consumer and one repo, nothing bound, as in
test_unbind_repo_not_bound (test_consumer_api.py lines 255-272). -/
def unbindDemoState : PulpState :=
  ⟨["test-consumer"], [⟨"test-repo", "Test Repo", "noarch", []⟩], [], [], [], []⟩

/-- Witness: unbinding a never-bound repo returns the state unchanged, and
unbinding with a nonexistent consumer fails. -/
theorem unbind_not_bound_noop_witness :
    ConsumerApi.unbind unbindDemoState "test-consumer" "test-repo" =
      .ok unbindDemoState ∧
    ConsumerApi.unbind unbindDemoState "fake-consumer" "test-repo" =
      .error PulpError.consumerNotFound :=
  ⟨((unbind_not_bound_noop unbindDemoState "test-consumer" "test-repo").1
      (by decide) (by decide)).1,
   ((unbind_not_bound_noop unbindDemoState "fake-consumer" "test-repo").2
      (by decide)).1⟩

/-- C8: for a consumer bound to exactly r1 and r2, unbinding r1 removes only
that relation — the bound-repo set becomes [r2] and the (consumer, r2) pair
is still in the relation — and dispatches to the consumer's agent exactly one
more unbind notice, whose argument is the unbound repo_id r1. -/
theorem unbind_removes_only_target (s : PulpState) (cid r1 r2 : String)
    (hc : s.consumers.contains cid = true) (hne : r2 ≠ r1)
    (hb : s.bindings.filter (fun b => b.1 == cid) = [(cid, r1), (cid, r2)]) :
    ConsumerApi.unbind s cid r1 = .ok (ConsumerApi.unbindStep s cid r1) ∧
    boundRepos (ConsumerApi.unbindStep s cid r1) cid = [r2] ∧
    (cid, r2) ∈ (ConsumerApi.unbindStep s cid r1).bindings ∧
    unbindCallsFor (ConsumerApi.unbindStep s cid r1) cid =
      unbindCallsFor s cid ++ [r1] ∧
    (unbindCallsFor (ConsumerApi.unbindStep s cid r1) cid).getLast? = some r1 := by
  have hmem : cid ∈ s.consumers := by simpa using hc
  have hmem1 : (cid, r1) ∈ s.bindings := by
    have h1 : (cid, r1) ∈ s.bindings.filter (fun b => b.1 == cid) := by
      rw [hb]; exact List.mem_cons_self _ _
    exact List.mem_of_mem_filter h1
  have hmem2 : (cid, r2) ∈ s.bindings := by
    have h2 : (cid, r2) ∈ s.bindings.filter (fun b => b.1 == cid) := by
      rw [hb]; exact List.mem_cons_of_mem _ (List.mem_cons_self _ _)
    exact List.mem_of_mem_filter h2
  have hbound : isBound s cid r1 = true :=
    List.any_eq_true.mpr ⟨(cid, r1), hmem1, by simp⟩
  have hret : ConsumerApi.unbind s cid r1 =
      .ok { s with
              bindings := s.bindings.filter (fun b => !(b.1 == cid && b.2 == r1)),
              unbind_calls := s.unbind_calls ++ [(cid, r1)] } := by
    simp [ConsumerApi.unbind, hmem, hbound]
  have hstep : ConsumerApi.unbindStep s cid r1 =
      { s with
          bindings := s.bindings.filter (fun b => !(b.1 == cid && b.2 == r1)),
          unbind_calls := s.unbind_calls ++ [(cid, r1)] } := by
    simp [ConsumerApi.unbindStep, hret]
  have hfilter :
      (s.bindings.filter (fun b => !(b.1 == cid && b.2 == r1))).filter
          (fun b => b.1 == cid) = [(cid, r2)] := by
    rw [List.filter_comm, hb]
    simp [hne]
  have h4 : unbindCallsFor (ConsumerApi.unbindStep s cid r1) cid =
      unbindCallsFor s cid ++ [r1] := by
    rw [hstep]; simp [unbindCallsFor, List.filter_append]
  refine ⟨by rw [hstep]; exact hret, ?_, ?_, h4,
    by rw [h4]; exact List.getLast?_concat _⟩
  · rw [hstep]
    show ((s.bindings.filter (fun b => !(b.1 == cid && b.2 == r1))).filter
        (fun b => b.1 == cid)).map (fun b => b.2) = [r2]
    rw [hfilter]
    rfl
  · rw [hstep]
    refine List.mem_filter.mpr ⟨hmem2, ?_⟩
    simp [hne]

/-- A state with one consumer bound to test-repo-1 and test-repo-2, as in
test_unbind_existing_repos (test_consumer_api.py lines 220-253). -/
def twoBoundState : PulpState :=
  ⟨["test-consumer"],
   [⟨"test-repo-1", "Test Repo", "noarch", []⟩,
    ⟨"test-repo-2", "Test Repo", "noarch", []⟩],
   [],
   [("test-consumer", "test-repo-1"), ("test-consumer", "test-repo-2")],
   [], []⟩

/-- Witness: unbinding test-repo-1 from the doubly bound consumer leaves the
bound set at [test-repo-2] and dispatches an unbind notice for test-repo-1. -/
theorem unbind_removes_only_target_witness :
    ConsumerApi.unbind twoBoundState "test-consumer" "test-repo-1" =
      .ok (ConsumerApi.unbindStep twoBoundState "test-consumer" "test-repo-1") ∧
    boundRepos (ConsumerApi.unbindStep twoBoundState "test-consumer" "test-repo-1")
        "test-consumer" = ["test-repo-2"] ∧
    ("test-consumer", "test-repo-2") ∈
      (ConsumerApi.unbindStep twoBoundState "test-consumer" "test-repo-1").bindings ∧
    unbindCallsFor (ConsumerApi.unbindStep twoBoundState "test-consumer" "test-repo-1")
        "test-consumer" =
      unbindCallsFor twoBoundState "test-consumer" ++ ["test-repo-1"] ∧
    (unbindCallsFor (ConsumerApi.unbindStep twoBoundState "test-consumer" "test-repo-1")
        "test-consumer").getLast? = some "test-repo-1" :=
  unbind_removes_only_target twoBoundState "test-consumer" "test-repo-1"
    "test-repo-2" (by decide) (by decide) (by decide)
